import Mathlib

/-!
# Traffic-Router-AI: recovery orchestration engine and memory ledger

Shallow embedding of the recovery agent (`agents/recovery-agent.py`,
`build-20250923-155853/agents/enhanced_recovery_agent_v2.py`) and the
markdown memory manager (`lib/memory-manager.py`), with theorems settling
the frozen claims about attempt counting, cooldown resets, strategy tiers,
health classification, ledger serialization, retention, relevance scoring,
search ordering and importance derivation.

Python strings are modeled as lists of characters (`Text`).  The string
primitives below mirror the exact Python operations used by the source
(`str.strip`, `str.split`, `in`, `str.lower`, `str.title`, and the three
regular expressions of the memory manager).  ASCII-only case mapping is
used: every keyword and delimiter the code compares against is ASCII, and
Cyrillic characters lower-case to Cyrillic characters, so the ASCII
approximation agrees with Python on every comparison the code performs.
-/

namespace TrafficRouter

/-- Python strings, modeled as lists of characters. -/
abbrev Text := List Char

/-- Conversion from a Lean string literal to the `Text` model. -/
def str (s : String) : Text := s.data

/-- Python `str.isspace` / `\s` on the ASCII whitespace characters
(space, tab, newline, carriage return, vertical tab, form feed). -/
def pyIsSpace (c : Char) : Bool :=
  c == ' ' || c == '\t' || c == '\n' || c == '\r' || c == '\x0b' || c == '\x0c'

/-- Python `str.strip()` (both ends). -/
def pyStrip (s : Text) : Text :=
  ((s.dropWhile pyIsSpace).reverse.dropWhile pyIsSpace).reverse

/-- ASCII lower-casing of one character (`str.lower`). -/
def lowerChar (c : Char) : Char :=
  if 'A' ≤ c ∧ c ≤ 'Z' then Char.ofNat (c.toNat + 32) else c

/-- ASCII upper-casing of one character. -/
def upperChar (c : Char) : Char :=
  if 'a' ≤ c ∧ c ≤ 'z' then Char.ofNat (c.toNat - 32) else c

/-- Python `str.lower()` (ASCII fragment). -/
def lowerText (s : Text) : Text := s.map lowerChar

/-- ASCII letter test. -/
def isAlphaChar (c : Char) : Bool :=
  ('a' ≤ c && c ≤ 'z') || ('A' ≤ c && c ≤ 'Z')

/-- Python word character (`\w`), ASCII fragment: letters, digits, underscore. -/
def isWordChar (c : Char) : Bool :=
  isAlphaChar c || ('0' ≤ c && c ≤ '9') || c == '_'

/-- Python `str.title()` (ASCII fragment): upper-case a letter that follows a
non-letter, lower-case a letter that follows a letter. -/
def pyTitleGo : Bool → Text → Text
  | _, [] => []
  | prevAlpha, c :: rest =>
    (if isAlphaChar c then (if prevAlpha then lowerChar c else upperChar c) else c) ::
      pyTitleGo (isAlphaChar c) rest

/-- Python `str.title()`. -/
def pyTitle (s : Text) : Text := pyTitleGo false s

/-- Split a text at the leftmost occurrence of `sep`, returning the part
before and the part after, or `none` if `sep` does not occur. -/
def breakOnSub (sep : Text) : Text → Option (Text × Text)
  | [] => none
  | c :: rest =>
    if sep.isPrefixOf (c :: rest) then some ([], (c :: rest).drop sep.length)
    else
      match breakOnSub sep rest with
      | some (pre, post) => some (c :: pre, post)
      | none => none

/-- Recursion core of `splitOnSub`.  The fuel argument only forces structural
recursion (so that the kernel can evaluate the function); since every split
consumes at least one character of a nonempty separator, fuel `s.length` is
never exhausted before the text is. -/
def splitOnSubGo (sep : Text) : Nat → Text → List Text
  | 0, s => [s]
  | fuel + 1, s =>
    match breakOnSub sep s with
    | none => [s]
    | some (pre, post) => pre :: splitOnSubGo sep fuel post

/-- Python `str.split(sep)` for a nonempty separator: split at each
non-overlapping leftmost occurrence of `sep`. -/
def splitOnSub (sep : Text) (s : Text) : List Text :=
  if sep = [] then [s] else splitOnSubGo sep s.length s

/-- Python substring containment `needle in hay` (empty needle is contained). -/
def containsSub (needle hay : Text) : Bool :=
  needle.isEmpty || (breakOnSub needle hay).isSome

/-- Single-pass core of `pyWords`: `acc` holds the characters of the current
word in reverse. -/
def pyWordsGo : Text → Text → List Text
  | [], acc => if acc = [] then [] else [acc.reverse]
  | c :: rest, acc =>
    if pyIsSpace c then
      if acc = [] then pyWordsGo rest [] else acc.reverse :: pyWordsGo rest []
    else pyWordsGo rest (c :: acc)

/-- Python `str.split()` with no argument: split on whitespace runs,
dropping empty pieces. -/
def pyWords (s : Text) : List Text := pyWordsGo s []

/-- Digit-accumulating core of `natToText`; the fuel argument only forces
structural recursion and `n + 1` is always enough (a number has at most
`n + 1` digits). -/
def natToTextGo : Nat → Nat → Text → Text
  | 0, _, acc => acc
  | fuel + 1, n, acc =>
    let acc1 := Char.ofNat (48 + n % 10) :: acc
    if n < 10 then acc1 else natToTextGo fuel (n / 10) acc1

/-- Decimal rendering of a natural number (Python `str` on `int`, `n ≥ 0`). -/
def natToText (n : Nat) : Text := natToTextGo (n + 1) n []

/-- Decimal rendering of an integer (Python `str` on `int`). -/
def intToText (i : Int) : Text :=
  if i < 0 then '-' :: natToText (-i).toNat else natToText i.toNat

/-!
## Memory manager (`lib/memory-manager.py`): parsing and formatting

The three regular expressions of `MarkdownMemoryManager` are modeled
directly.  `re.search`/`re.findall` take the leftmost match and, for
`findall`, continue after the matched span (non-overlapping matches).
-/

/-- One attempt of `re` pattern `\[<label>\s*([^\]]+)\]` at the head of `s`
(`label` is passed as e.g. `"[ID:"`).  When the greedy `\s*` leaves only a
`]`, the engine backtracks one whitespace character into the capture. -/
def matchTagAt (label : Text) (s : Text) : Option Text :=
  if label.isPrefixOf s then
    let s1 := s.drop label.length
    let ws := s1.takeWhile pyIsSpace
    let s2 := s1.drop ws.length
    let cap := s2.takeWhile (fun c => c ≠ ']')
    if cap.isEmpty then
      match s2.head?, ws.reverse with
      | some ']', w :: _ => some [w]
      | _, _ => none
    else if (s2.drop cap.length).head? = some ']' then some cap
    else none
  else none

/-- `re.search` for the pattern of `matchTagAt`: leftmost match wins. -/
def searchTag (label : Text) : Text → Option Text
  | [] => none
  | c :: rest =>
    match matchTagAt label (c :: rest) with
    | some v => some v
    | none => searchTag label rest

/-- Core of `re.findall(r'#(\w+)', content)`: the fuel argument only forces
structural recursion; `s.length` is always enough since every step consumes
at least one character. -/
def findAllTagsGo : Nat → Text → List Text
  | 0, _ => []
  | _, [] => []
  | fuel + 1, c :: rest =>
    if c = '#' then
      let w := rest.takeWhile isWordChar
      if w.isEmpty then findAllTagsGo fuel rest
      else w :: findAllTagsGo fuel (rest.drop w.length)
    else findAllTagsGo fuel rest

/-- `re.findall(r'#(\w+)', content)` (tags extraction, line 288). -/
def findAllTags (s : Text) : List Text := findAllTagsGo s.length s

/-- One attempt of `re` pattern `\*\*([^*]+)\*\*:\s*([^\n]+)` at the head of
`s`; returns key, value and the rest of the text after the match.  When the
greedy `\s*` consumes everything matchable the engine backtracks to give
`[^\n]+` its final non-newline whitespace character. -/
def matchMetaAt (s : Text) : Option (Text × Text × Text) :=
  if (str "**").isPrefixOf s then
    let s1 := s.drop 2
    let key := s1.takeWhile (fun c => c ≠ '*')
    if key.isEmpty then none
    else
      let s2 := s1.drop key.length
      if (str "**:").isPrefixOf s2 then
        let s3 := s2.drop 3
        let ws := s3.takeWhile pyIsSpace
        let s4 := s3.drop ws.length
        let val := s4.takeWhile (fun c => c ≠ '\n')
        if val.isEmpty then
          match ws.reverse.dropWhile (fun c => c == '\n') with
          | w :: _ => some (key, [w], (ws.reverse.takeWhile (fun c => c == '\n')).reverse ++ s4)
          | [] => none
        else some (key, val, s4.drop val.length)
      else none
  else none

/-- Core of `re.findall` for the metadata pattern (non-overlapping leftmost
matches); fueled for structural recursion, `s.length` is always enough. -/
def findAllMetaGo : Nat → Text → List (Text × Text)
  | 0, _ => []
  | _, [] => []
  | fuel + 1, c :: rest =>
    match matchMetaAt (c :: rest) with
    | some (k, v, rem) => (k, v) :: findAllMetaGo fuel rem
    | none => findAllMetaGo fuel rest

/-- `re.findall(r'\*\*([^*]+)\*\*:\s*([^\n]+)', content)` (line 292). -/
def findAllMeta (s : Text) : List (Text × Text) := findAllMetaGo s.length s

/-- Python `dict` assignment `d[k] = v`: overwrite in place or append. -/
def dictInsert (m : List (Text × Text)) (k v : Text) : List (Text × Text) :=
  if m.any (fun p => p.1 = k) then m.map (fun p => if p.1 = k then (k, v) else p)
  else m ++ [(k, v)]

/-- Build a Python `dict` from a pair list in insertion order. -/
def dictOfPairs (ps : List (Text × Text)) : List (Text × Text) :=
  ps.foldl (fun m p => dictInsert m p.1 p.2) []

/-- `MarkdownMemoryManager._extract_tags_and_metadata` (lines 282-296). -/
def extractTagsAndMetadata (content : Text) : List Text × List (Text × Text) :=
  (findAllTags content,
   dictOfPairs ((findAllMeta content).map (fun p => (pyStrip p.1, pyStrip p.2))))

/-- `MarkdownMemoryManager._determine_importance` (lines 298-319). -/
def determineImportance (content memType : Text) : Int :=
  let cl := lowerText content
  if [str "critical", str "emergency", str "fatal", str "crash"].any
      (fun w => containsSub w cl) then 5
  else if memType = str "error" ∨ memType = str "recovery" ∨
      [str "failed", str "timeout", str "restart"].any (fun w => containsSub w cl) then 4
  else if memType = str "warning" ∨ memType = str "decision" ∨
      [str "alert", str "changed", str "updated"].any (fun w => containsSub w cl) then 3
  else if memType = str "success" ∨ memType = str "monitoring" then 2
  else 1

/-- `MarkdownMemoryManager._extract_memory_type` (lines 248-268). -/
def extractMemoryType (header : Text) : Text :=
  match searchTag (str "[TYPE:") header with
  | some v => lowerText (pyStrip v)
  | none =>
    let hl := lowerText header
    if [str "error", str "failed", str "exception"].any (fun w => containsSub w hl) then
      str "error"
    else if [str "success", str "completed", str "fixed"].any (fun w => containsSub w hl) then
      str "success"
    else if [str "warning", str "alert"].any (fun w => containsSub w hl) then
      str "warning"
    else if [str "recovery", str "restart", str "restore"].any (fun w => containsSub w hl) then
      str "recovery"
    else if [str "monitoring", str "check", str "status"].any (fun w => containsSub w hl) then
      str "monitoring"
    else str "fact"

/-- Stand-in for the `md5(header + now)` fallback id of `_extract_entry_id`
(lines 238-246); never taken on formatter output, which always carries an
`[ID: ...]` tag. -/
def fallbackEntryId (_header : Text) : Text := str "<md5-of-header-and-clock>"

/-- `MarkdownMemoryManager._extract_entry_id` (lines 238-246). -/
def extractEntryId (header : Text) : Text :=
  match searchTag (str "[ID:") header with
  | some v => pyStrip v
  | none => fallbackEntryId header

/-- Stand-in for the `datetime.now()` fallback of `_extract_timestamp`. -/
def nowTimestampText : Text := str "<datetime.now()>"

/-- `MarkdownMemoryManager._extract_timestamp` (lines 270-280).  `datetime`
values are modeled by their ISO-8601 rendering: `datetime.fromisoformat`
inverts `datetime.isoformat`, so on the well-formed stamps appearing in the
theorems below the text stands for the value and the `ValueError` fallback
to `datetime.now()` is never taken. -/
def extractTimestampText (header : Text) : Text :=
  match searchTag (str "[TIME:") header with
  | some v => pyStrip v
  | none => nowTimestampText

/-- A `MemoryEntry` as it exists in the markdown serialization layer: the
timestamp is carried as its ISO-8601 text (see `extractTimestampText`), all
other fields as in the `MemoryEntry` dataclass.  The `entity` field is not
part of the serialized form (`_parse_markdown_entries` always sets it to
`""`) and is omitted. -/
structure ParsedEntry where
  id : Text
  memory_type : Text
  timestampText : Text
  content : Text
  tags : List Text
  metadata : List (Text × Text)
  importance : Int
  deriving DecidableEq

/-- One section of `MarkdownMemoryManager._parse_markdown_entries`
(lines 196-230). -/
def parseMarkdownSection (s : Text) : ParsedEntry :=
  let lines := splitOnSub (str "\n") (pyStrip s)
  let header := pyStrip (lines.headD [])
  let memType := extractMemoryType header
  let entryContent := pyStrip (List.intercalate (str "\n") (lines.drop 1))
  let tm := extractTagsAndMetadata entryContent
  { id := extractEntryId header
    memory_type := memType
    timestampText := extractTimestampText header
    content := entryContent
    tags := tm.1
    metadata := tm.2
    importance := determineImportance entryContent memType }

/-- `MarkdownMemoryManager._parse_markdown_entries` (lines 189-236): split
on level-2 headings, skip the file preamble, parse each section.  The
`except` branch that skips a section is unreachable because every helper
catches its own failures (the `ValueError` of `fromisoformat` is handled
inside `_extract_timestamp`). -/
def parseMarkdownEntries (content : Text) : List ParsedEntry :=
  ((splitOnSub (str "\n## ") content).drop 1).map parseMarkdownSection

/-- The `importance_levels` table of the default configuration
(lines 85-91), with the `dict.get` default `'unknown'`. -/
def importanceLevelName (i : Int) : Text :=
  if i = 1 then str "low"
  else if i = 2 then str "normal"
  else if i = 3 then str "high"
  else if i = 4 then str "critical"
  else if i = 5 then str "emergency"
  else str "unknown"

/-- `MarkdownMemoryManager._format_entry_as_markdown` (lines 394-421). -/
def formatEntryAsMarkdown (e : ParsedEntry) : Text :=
  let header := str "## " ++ pyTitle e.memory_type ++ str " Entry [ID: " ++ e.id ++
    str "] [TYPE: " ++ e.memory_type ++ str "] [TIME: " ++ e.timestampText ++ str "]"
  let contentLines : List Text :=
    [header, []] ++
    [str "**Важность**: " ++ intToText e.importance ++ str "/5 (" ++
      importanceLevelName e.importance ++ str ")"] ++
    (if e.tags.isEmpty then []
     else [str "**Теги**: " ++ List.intercalate (str " ") (e.tags.map (fun t => '#' :: t))]) ++
    (if e.metadata.isEmpty then []
     else (str "**Метаданные**:") ::
       e.metadata.map (fun p => str "- **" ++ p.1 ++ str "**: " ++ p.2)) ++
    [[], str "**Содержимое**:", e.content]
  List.intercalate (str "\n") contentLines

/-- `MarkdownMemoryManager._rewrite_entity_file` (lines 652-671): the
on-disk text of an entity file holding exactly the given entries. -/
def rewriteEntityFileText (entity updatedIso : Text) (entries : List ParsedEntry) : Text :=
  (str "# " ++ entity ++ str "\n\nПамять AI агента для сущности: " ++ entity ++
    str "\nОбновлено: " ++ updatedIso ++ str "\n\n---\n") ++
  (entries.map (fun e => str "\n" ++ formatEntryAsMarkdown e ++ str "\n")).flatten

/-!
## Memory manager: relevance scoring, search, retention
-/

/-- The `MemoryEntry` dataclass (lines 22-38) in its value view: the
timestamp is a point on the clock line (microsecond-precision `datetime`
values are totally ordered, modeled by `Int`); `importance` is a Python
`int`. -/
structure MemoryEntry where
  id : Text
  entity : Text
  content : Text
  memory_type : Text
  timestamp : Int
  tags : List Text
  metadata : List (Text × Text)
  importance : Int
  deriving DecidableEq

/-- `MarkdownMemoryManager._calculate_relevance` (lines 509-541).  All
scores are small multiples of 0.5, which Python floats represent exactly,
so `ℚ` is an exact model.  `str(value)` on the (string) metadata values is
the identity. -/
def calculateRelevance (entry : MemoryEntry) (query : Text) : ℚ :=
  let queryLower := lowerText query
  let contentLower := lowerText entry.content
  let score : ℚ := 0
  let score := if containsSub queryLower contentLower then score + 10 else score
  let queryWords := pyWords queryLower
  let contentWords := pyWords contentLower
  let matchingWords := queryWords.dedup.filter (fun w => w ∈ contentWords)
  let score := if ¬ matchingWords.isEmpty then score + (matchingWords.length : ℚ) * 2 else score
  let score := entry.tags.foldl
    (fun s tag => if containsSub queryLower (lowerText tag) then s + 5 else s) score
  let score := entry.metadata.foldl
    (fun s kv => if containsSub queryLower (lowerText kv.2) then s + 3 else s) score
  score + (entry.importance : ℚ) * (1 / 2)

/-- One result row of `_search_in_entity` (lines 492-502): the Python dict
projects fields of the entry plus the entity name and the score; the model
keeps the entry whole. -/
structure SearchResult where
  entity : Text
  entry : MemoryEntry
  relevance_score : ℚ
  deriving DecidableEq

/-- `MarkdownMemoryManager._search_in_entity` (lines 469-507), at the level
of already-parsed entries.  The guard `if memory_type and entry.memory_type
!= memory_type: continue` uses Python truthiness: `None` and `""` are both
falsy. -/
def searchInEntity (entity : Text) (entries : List MemoryEntry) (query : Text)
    (memType : Option Text) : List SearchResult :=
  entries.filterMap (fun e =>
    if (match memType with
        | some mt => !mt.isEmpty && e.memory_type ≠ mt
        | none => false) then none
    else
      let sc := calculateRelevance e query
      if 0 < sc then some ⟨entity, e, sc⟩ else none)

/-- The sort key of `search_memory` (line 461): the tuple
`(relevance_score, importance)`, compared lexicographically. -/
def searchKey (r : SearchResult) : ℚ × Int := (r.relevance_score, r.entry.importance)

/-- Descending (reflexive) comparison of sort keys: `a` may precede `b`. -/
def keyGE (a b : ℚ × Int) : Prop := b.1 < a.1 ∨ (a.1 = b.1 ∧ b.2 ≤ a.2)

instance (a b : ℚ × Int) : Decidable (keyGE a b) := by unfold keyGE; infer_instance

/-- Stable descending insertion: `x` goes in front of the first element
whose key it is `keyGE`-above, hence behind every earlier element with an
equal key. -/
def insertDesc (x : SearchResult) : List SearchResult → List SearchResult
  | [] => [x]
  | y :: ys => if keyGE (searchKey x) (searchKey y) then x :: y :: ys else y :: insertDesc x ys

/-- The sort of `search_memory` (line 461):
`results.sort(key=lambda x: (x['relevance_score'], x['importance']),
reverse=True)`.  Python's sort is stable and `reverse=True` keeps equal
elements in their original order; a stable sort's output is determined by
key and input order, so stable insertion sort models it exactly. -/
def sortByRelevanceDesc : List SearchResult → List SearchResult
  | [] => []
  | x :: xs => insertDesc x (sortByRelevanceDesc xs)

/-- `MarkdownMemoryManager.search_memory` (lines 447-467): gather
per-entity rows in dict-iteration (insertion) order, sort stably by
`(score, importance)` descending, truncate to `limit`. -/
def searchMemory (entities : List (Text × List MemoryEntry)) (query : Text)
    (memType : Option Text) (limit : Nat) : List SearchResult :=
  let results := (entities.map (fun p => searchInEntity p.1 p.2 query memType)).flatten
  (sortByRelevanceDesc results).take limit

/-- The retention filter of `MarkdownMemoryManager.cleanup_old_memories`
(lines 633-637): keep the entries newer than the cutoff or of importance
at least 4. -/
def cleanupFilterEntries (cutoffDate : Int) (entries : List MemoryEntry) : List MemoryEntry :=
  entries.filter (fun e => cutoffDate < e.timestamp ∨ 4 ≤ e.importance)

/-- The importance defaulting of `MarkdownMemoryManager.update_memory`
(lines 329-330): an omitted (`None`) importance is derived from content
and memory type. -/
def updateMemoryImportance (importance : Option Int) (content memType : Text) : Int :=
  match importance with
  | none => determineImportance content memType
  | some i => i

/-!
## Recovery agent (`agents/recovery-agent.py`)
-/

/-- The four recovery strategies of `_attempt_service_recovery`
(lines 848-853), named after the methods they call. -/
inductive Strategy
  | restartDockerContainer
  | restartProcess
  | fullServiceRestart
  | systemCleanupAndRestart
  deriving DecidableEq

/-- The `recovery_strategies` list of lines 848-853, in source order. -/
def recoveryStrategies : List Strategy :=
  [.restartDockerContainer, .restartProcess, .fullServiceRestart, .systemCleanupAndRestart]

/-- `self.max_recovery_attempts` (line 585). -/
def maxRecoveryAttempts : Nat := 3

/-- `self.recovery_cooldown` in seconds (line 586). -/
def recoveryCooldown : Int := 300

/-- The per-service value of `self.recovery_attempts` (line 584): `none`
while the service has no record, otherwise `(last_attempt, attempts)`. -/
abbrev RecoveryRecord := Option (Int × Nat)

/-- What one call of `_attempt_service_recovery` did. -/
inductive RecoveryEvent
  /-- `_escalate_failure` from line 828: the attempt limit was reached
  within the cooldown window; no strategy was attempted. -/
  | escalatedLimit
  /-- some strategy reported success (line 862). -/
  | recovered
  /-- every strategy failed; `_escalate_failure` from line 868. -/
  | escalatedExhausted
  deriving DecidableEq

/-- Whether the event is a call of `_escalate_failure`. -/
def isEscalationEvent : RecoveryEvent → Bool
  | .recovered => false
  | _ => true

/-- The strategy loop of `_attempt_service_recovery` (lines 855-866): try
the tiers in list order, stop at the first success; an exception inside a
strategy counts as failure (the `except` logs and continues).  `outcomes`
gives each tier's success report; returns the attempted tiers in order and
whether one succeeded. -/
def runStrategiesGo (outcomes : Strategy → Bool) : List Strategy → List Strategy × Bool
  | [] => ([], false)
  | s :: rest =>
    if outcomes s then ([s], true)
    else
      let r := runStrategiesGo outcomes rest
      (s :: r.1, r.2)

/-- The strategy loop over the configured tier list. -/
def runStrategies (outcomes : Strategy → Bool) : List Strategy × Bool :=
  runStrategiesGo outcomes recoveryStrategies

/-- `TrafficRouterRecoveryAgent._attempt_service_recovery` (lines 817-868)
for one service: `st` is the service's `recovery_attempts` record, `now` is
`datetime.now()`, `outcomes` the success reports of the strategies.
Returns the updated record and what happened. -/
def attemptServiceRecovery (st : RecoveryRecord) (now : Int)
    (outcomes : Strategy → Bool) : RecoveryRecord × RecoveryEvent :=
  -- lines 821-834: limit check, cooldown reset, lazy record creation
  let check : RecoveryRecord ⊕ (Int × Nat) :=
    match st with
    | some (lastAttempt, attempts) =>
      if now - lastAttempt < recoveryCooldown then
        if maxRecoveryAttempts ≤ attempts then Sum.inl st  -- early return, record untouched
        else Sum.inr (lastAttempt, attempts)
      else Sum.inr (now, 0)      -- cooldown elapsed: reset the counter
    | none => Sum.inr (now, 0)
  match check with
  | Sum.inl r => (r, .escalatedLimit)
  | Sum.inr (_, attempts) =>
    -- lines 836-838: increment; lines 846-868: the strategy loop
    (some (now, attempts + 1),
     if (runStrategies outcomes).2 then .recovered else .escalatedExhausted)

/-- A monitoring cycle's probe result for one service: `none` for a
healthy (HTTP 200) probe — which touches only `services_status`, never
`recovery_attempts` (lines 779-785) — and `some outcomes` for a failed
probe, which ends in `_attempt_service_recovery` (line 815). -/
abbrev ProbeCycle := Int × Option (Strategy → Bool)

/-- One monitoring cycle for one service (`_check_service_health` and
`_handle_service_failure`, lines 768-815), restricted to its effect on the
service's recovery record. -/
def monitorStep (st : RecoveryRecord) (p : ProbeCycle) :
    RecoveryRecord × Option RecoveryEvent :=
  match p.2 with
  | none => (st, none)
  | some outcomes =>
    let r := attemptServiceRecovery st p.1 outcomes
    (r.1, some r.2)

/-- Fold of `monitorStep` over a sequence of monitoring cycles. -/
def runMonitor (st : RecoveryRecord) (ps : List ProbeCycle) : RecoveryRecord :=
  ps.foldl (fun s p => (monitorStep s p).1) st

/-- Fold of `attemptServiceRecovery` over consecutive failing probes,
collecting the per-probe events. -/
def runFailingProbes (st : RecoveryRecord) :
    List (Int × (Strategy → Bool)) → RecoveryRecord × List RecoveryEvent
  | [] => (st, [])
  | p :: ps =>
    let r := attemptServiceRecovery st p.1 p.2
    let rest := runFailingProbes r.1 ps
    (rest.1, r.2 :: rest.2)

/-- The attempt counter stored in a recovery record (0 when absent). -/
def recordAttempts : RecoveryRecord → Nat
  | none => 0
  | some (_, a) => a

/-!
## Enhanced recovery agent v2: health probe classification
-/

/-- Outcome of the probe request of `_check_service_health`
(`enhanced_recovery_agent_v2.py` lines 298-347): an HTTP response with its
status and measured elapsed milliseconds, an `asyncio.TimeoutError`, or
any other exception with its message. -/
inductive ProbeOutcome
  | httpResponse (status : Nat) (elapsedMs : ℚ)
  | timedOut
  | failedWith (msg : Text)
  deriving DecidableEq

/-- The classification fields of the `ServiceHealth` record written by
`_check_service_health`; the `recovery_attempts` field is carried over
unchanged in every branch and omitted here. -/
structure HealthClassification where
  status : Text
  response_time : ℚ
  error_message : Option Text
  deriving DecidableEq

/-- `EnhancedRecoveryAgent._check_service_health` (lines 298-347):
HTTP 200 → `healthy`; any other status → `unhealthy` with `"HTTP <code>"`;
timeout → `unhealthy` with `"Timeout"` and `timeout * 1000` as response
time; any other exception → `unhealthy` with its message. -/
def checkServiceHealth (timeoutSecs : ℚ) : ProbeOutcome → HealthClassification
  | .httpResponse status elapsedMs =>
    if status = 200 then ⟨str "healthy", elapsedMs, none⟩
    else ⟨str "unhealthy", elapsedMs, some (str "HTTP " ++ natToText status)⟩
  | .timedOut => ⟨str "unhealthy", timeoutSecs * 1000, some (str "Timeout")⟩
  | .failedWith msg => ⟨str "unhealthy", 0, some msg⟩

/-!
## Claim-side definitions

Definitions in this section follow the words of the specification's claims
(for refutation or refinement), or are concrete data used by the
counterexample and witness theorems.
-/

/-- Modelled from the spec's words for claim C3: the tier order the claim
asserts (`restart-process → restart-container → full-stack-restart →
host-cleanup-and-restart`). -/
def c3ClaimedOrder : List Strategy :=
  [.restartProcess, .restartDockerContainer, .fullServiceRestart, .systemCleanupAndRestart]

/-- Modelled from the spec's words for claim C4: the status the claim
predicts for each probe outcome (`degraded` for non-200 HTTP statuses). -/
def c4ClaimedStatus : ProbeOutcome → Text
  | .httpResponse status _ => if status = 200 then str "healthy" else str "degraded"
  | .timedOut => str "unhealthy"
  | .failedWith _ => str "unhealthy"

/-- Modelled from the spec's words for claim C7: the closed-form relevance
formula (10 for a substring match + 2 per distinct shared word + 5 per
matching tag + 3 per matching metadata value + 0.5 × importance). -/
def c7SpecRelevance (entry : MemoryEntry) (query : Text) : ℚ :=
  let ql := lowerText query
  let cl := lowerText entry.content
  (if containsSub ql cl then (10 : ℚ) else 0) +
    2 * (((pyWords ql).dedup.filter (fun w => w ∈ pyWords cl)).length : ℚ) +
    5 * ((entry.tags.filter (fun t => containsSub ql (lowerText t))).length : ℚ) +
    3 * ((entry.metadata.filter (fun kv => containsSub ql (lowerText kv.2))).length : ℚ) +
    (1 / 2) * (entry.importance : ℚ)

/-- Modelled from the spec's words for claim C9 as frozen: severity
keywords `critical`/`fatal`/`crash` → 5; error/recovery types or failure
keywords (unspecified in the claim; the code's `failed`/`timeout`/
`restart`) → 4; warning/decision types or `alert`/`changed` → 3;
success/monitoring types → 2; otherwise 1. -/
def c9ClaimedImportance (content memType : Text) : Int :=
  let cl := lowerText content
  if [str "critical", str "fatal", str "crash"].any (fun w => containsSub w cl) then 5
  else if memType = str "error" ∨ memType = str "recovery" ∨
      [str "failed", str "timeout", str "restart"].any (fun w => containsSub w cl) then 4
  else if memType = str "warning" ∨ memType = str "decision" ∨
      [str "alert", str "changed"].any (fun w => containsSub w cl) then 3
  else if memType = str "success" ∨ memType = str "monitoring" then 2
  else 1

/-- Claim C9 amended to the code's keyword lists: `emergency` is a fourth
severity keyword and `updated` a third keyword of the 3-tier. -/
def c9AmendedImportance (content memType : Text) : Int :=
  let cl := lowerText content
  if [str "critical", str "emergency", str "fatal", str "crash"].any
      (fun w => containsSub w cl) then 5
  else if memType = str "error" ∨ memType = str "recovery" ∨
      [str "failed", str "timeout", str "restart"].any (fun w => containsSub w cl) then 4
  else if memType = str "warning" ∨ memType = str "decision" ∨
      [str "alert", str "changed", str "updated"].any (fun w => containsSub w cl) then 3
  else if memType = str "success" ∨ memType = str "monitoring" then 2
  else 1

/-- A plain ledger entry (type `fact`, explicit importance 2, no tags, no
metadata) used to exhibit the round-trip failure of claim C5. -/
def c5Entry : ParsedEntry :=
  { id := str "e1", memory_type := str "fact",
    timestampText := str "2025-01-01T00:00:00", content := str "hi",
    tags := [], metadata := [], importance := 2 }

/-- A recovery entry with a tag, a metadata pair and importance 4, used to
exhibit the round-trip failure of claim C5 on every claimed field. -/
def c5EntryRecovery : ParsedEntry :=
  { id := str "e2", memory_type := str "recovery",
    timestampText := str "2025-01-01T00:00:01", content := str "restarted web",
    tags := [str "web"], metadata := [(str "attempt", str "2")], importance := 4 }

/-- An entry exactly as old as the retention cutoff, of low importance
(claim C6 boundary case). -/
def c6BoundaryEntry : MemoryEntry :=
  { id := str "b1", entity := str "svc", content := str "note",
    memory_type := str "fact", timestamp := 100, tags := [], metadata := [],
    importance := 1 }

/-- The older of two search-tied entries (claim C8). -/
def c8OlderEntry : MemoryEntry :=
  { id := str "o1", entity := str "svc", content := str "alpha",
    memory_type := str "fact", timestamp := 10, tags := [], metadata := [],
    importance := 1 }

/-- The newer of two search-tied entries (claim C8): same content, type and
importance as `c8OlderEntry`, hence the same relevance score for every
query, but a later timestamp and a later position in the entity file. -/
def c8NewerEntry : MemoryEntry :=
  { id := str "n1", entity := str "svc", content := str "alpha",
    memory_type := str "fact", timestamp := 20, tags := [], metadata := [],
    importance := 1 }

/-- An entry whose content, tags and metadata do not contain the query used
in the claim C10 witness. -/
def c10Entry : MemoryEntry :=
  { id := str "q1", entity := str "svc", content := str "routine note",
    memory_type := str "fact", timestamp := 1, tags := [], metadata := [],
    importance := 1 }

/-- Six consecutive failing probes, 100 s apart, every strategy failing:
the flapping-faster-than-cooldown trace of claim C2's counterexample.  The
service is never observed healthy. -/
def c2FailingTrace : List ProbeCycle :=
  [(0, some (fun _ => false)), (100, some (fun _ => false)),
   (200, some (fun _ => false)), (300, some (fun _ => false)),
   (400, some (fun _ => false)), (500, some (fun _ => false))]

/-!
## Theorems
-/

/-- Folding `+amt`-if-`p` over a list adds `amt` per element satisfying
`p` (used to relate the accumulation loops of `_calculate_relevance` to
the closed-form score). -/
theorem foldl_add_if_filter {α : Type} (p : α → Bool) (amt : ℚ) (l : List α) :
    ∀ s : ℚ, l.foldl (fun acc x => if p x then acc + amt else acc) s =
      s + amt * ((l.filter p).length : ℚ) := by
  induction l with
  | nil => intro s; simp
  | cons x xs ih =>
    intro s
    cases h : p x <;> simp [List.filter_cons, h, ih] <;> ring

/-- C3, counterexample: the code's tier list starts with the container
restart, not the process restart; with every tier reporting success, the
one attempted tier is `restartDockerContainer` where the claim predicts
`restartProcess`. -/
theorem c3_counterexample :
    recoveryStrategies ≠ c3ClaimedOrder ∧
    (runStrategies (fun _ => true)).1 = [Strategy.restartDockerContainer] := by
  exact ⟨by decide, by decide⟩

/-- C3 (amended): within one recovery cycle the tiers are tried in the
order restart-container → restart-process → full-stack-restart →
host-cleanup-and-restart (container and process swapped relative to the
claim); the attempted tiers are the maximal failing prefix plus the first
succeeding tier if any, so a tier's failure leads immediately to the next
tier within the same cycle; the first success ends the cycle; when no tier
succeeds all four are attempted. -/
theorem c3_strategy_order (outcomes : Strategy → Bool) :
    recoveryStrategies = [Strategy.restartDockerContainer, Strategy.restartProcess,
      Strategy.fullServiceRestart, Strategy.systemCleanupAndRestart] ∧
    (runStrategies outcomes).1 =
      recoveryStrategies.take
        ((recoveryStrategies.takeWhile (fun s => !outcomes s)).length + 1) ∧
    ((runStrategies outcomes).2 = true ↔ recoveryStrategies.any outcomes = true) ∧
    (∀ s ∈ (runStrategies outcomes).1.dropLast, outcomes s = false) ∧
    ((runStrategies outcomes).2 = false → (runStrategies outcomes).1 = recoveryStrategies) := by
  cases h1 : outcomes .restartDockerContainer <;>
    cases h2 : outcomes .restartProcess <;>
      cases h3 : outcomes .fullServiceRestart <;>
        cases h4 : outcomes .systemCleanupAndRestart <;>
          simp [runStrategies, runStrategiesGo, recoveryStrategies, h1, h2, h3, h4]

/-- Witness for C3: with every tier failing, all four tiers are attempted. -/
theorem c3_strategy_order_witness :
    (runStrategies (fun _ => false)).1 = recoveryStrategies :=
  (c3_strategy_order (fun _ => false)).2.2.2.2 rfl

/-- C4, counterexample: an HTTP 500 response is classified `unhealthy`,
while the claim predicts `degraded` for every non-200 HTTP status. -/
theorem c4_counterexample :
    (checkServiceHealth 10 (.httpResponse 500 5)).status = str "unhealthy" ∧
    c4ClaimedStatus (.httpResponse 500 5) = str "degraded" ∧
    (checkServiceHealth 10 (.httpResponse 500 5)).status ≠
      c4ClaimedStatus (.httpResponse 500 5) := by
  exact ⟨by decide, by decide, by decide⟩

/-- C4 (amended): the health probe's classification of one request outcome
is a deterministic function of that outcome: HTTP 200 yields `healthy`
with the measured latency and no error detail; any other HTTP status
yields `unhealthy` (not `degraded`) with `"HTTP <code>"` recorded; a
timeout yields `unhealthy` with `"Timeout"` and the timeout (in ms) as
latency; any other transport failure yields `unhealthy` with the
underlying error message. -/
theorem c4_probe_classification (t : ℚ) (r : ProbeOutcome) :
    ((checkServiceHealth t r).status = str "healthy" ↔
      ∃ ms, r = .httpResponse 200 ms) ∧
    (∀ ms, r = .httpResponse 200 ms →
      checkServiceHealth t r = ⟨str "healthy", ms, none⟩) ∧
    (∀ s ms, r = .httpResponse s ms → s ≠ 200 →
      checkServiceHealth t r = ⟨str "unhealthy", ms, some (str "HTTP " ++ natToText s)⟩) ∧
    (r = .timedOut →
      checkServiceHealth t r = ⟨str "unhealthy", t * 1000, some (str "Timeout")⟩) ∧
    (∀ m, r = .failedWith m → checkServiceHealth t r = ⟨str "unhealthy", 0, some m⟩) := by
  cases r with
  | httpResponse s ms =>
    by_cases h : s = 200
    · subst h
      refine ⟨?_, ?_, ?_, ?_, ?_⟩ <;> simp [checkServiceHealth]
    · refine ⟨?_, ?_, ?_, ?_, ?_⟩
      · simp only [checkServiceHealth, if_neg h]
        constructor
        · intro hs; exact absurd hs (by decide)
        · rintro ⟨ms', hms⟩
          cases hms; exact absurd rfl h
      · intro ms' hms; cases hms; exact absurd rfl h
      · intro s' ms' hms hne
        cases hms; simp [checkServiceHealth, if_neg h]
      · intro hc; cases hc
      · intro m hc; cases hc
  | timedOut =>
    refine ⟨?_, ?_, ?_, ?_, ?_⟩ <;> simp [checkServiceHealth] <;> decide
  | failedWith m =>
    refine ⟨?_, ?_, ?_, ?_, ?_⟩ <;> simp [checkServiceHealth] <;> decide

/-- Witness for C4 at a concrete non-200 response. -/
theorem c4_probe_classification_witness :
    checkServiceHealth 10 (.httpResponse 404 7) =
      ⟨str "unhealthy", 7, some (str "HTTP " ++ natToText 404)⟩ :=
  (c4_probe_classification 10 (.httpResponse 404 7)).2.2.1 404 7 rfl (by decide)

/-- C6, counterexample: an entry exactly as old as the cutoff
(timestamp = cutoff) with importance below 4 is removed by the sweep,
although it is not older than the cutoff — the claim's "removes exactly
the entries older than the cutoff" fails at the boundary. -/
theorem c6_counterexample :
    cleanupFilterEntries 100 [c6BoundaryEntry] = [] ∧
    ¬ c6BoundaryEntry.timestamp < 100 ∧ c6BoundaryEntry.importance < 4 := by
  exact ⟨by decide, by decide, by decide⟩

/-- C6 (amended): the retention sweep with cutoff instant `cutoff` removes
exactly the entries that are not strictly newer than the cutoff
(`timestamp ≤ cutoff`, including the boundary) and have importance below
4; every entry with importance ≥ 4 is retained regardless of age, and
every entry strictly newer than the cutoff is retained regardless of
importance. -/
theorem c6_retention_sweep (cutoff : Int) (entries : List MemoryEntry) :
    cleanupFilterEntries cutoff entries =
      entries.filter (fun e => !(decide (e.timestamp ≤ cutoff) && decide (e.importance < 4))) ∧
    (∀ e ∈ entries, 4 ≤ e.importance → e ∈ cleanupFilterEntries cutoff entries) ∧
    (∀ e ∈ entries, cutoff < e.timestamp → e ∈ cleanupFilterEntries cutoff entries) ∧
    (∀ e ∈ cleanupFilterEntries cutoff entries,
      e ∈ entries ∧ (cutoff < e.timestamp ∨ 4 ≤ e.importance)) := by
  refine ⟨?_, ?_, ?_, ?_⟩
  · apply List.filter_congr
    intro e _
    by_cases h1 : cutoff < e.timestamp <;> by_cases h2 : 4 ≤ e.importance <;>
      simp [h1, h2] <;> omega
  · intro e he h4
    rw [cleanupFilterEntries, List.mem_filter]
    exact ⟨he, by simpa using Or.inr h4⟩
  · intro e he ht
    rw [cleanupFilterEntries, List.mem_filter]
    exact ⟨he, by simpa using Or.inl ht⟩
  · intro e he
    rw [cleanupFilterEntries, List.mem_filter] at he
    exact ⟨he.1, by simpa using he.2⟩

/-- Witness for C6: an importance-4 entry as old as the cutoff is kept. -/
theorem c6_retention_sweep_witness :
    c6BoundaryEntry ∈ cleanupFilterEntries 99 [c6BoundaryEntry] :=
  (c6_retention_sweep 99 [c6BoundaryEntry]).2.2.1 c6BoundaryEntry (by decide) (by decide)

/-- The accumulation loops of `_calculate_relevance` compute the
closed-form score (shared between the C7 and C10 theorems). -/
theorem relevance_closed_form (entry : MemoryEntry) (query : Text) :
    calculateRelevance entry query = c7SpecRelevance entry query := by
  simp only [calculateRelevance, c7SpecRelevance]
  rw [foldl_add_if_filter, foldl_add_if_filter]
  by_cases h2 : ((pyWords (lowerText query)).dedup.filter
      (fun w => w ∈ pyWords (lowerText entry.content))) = [] <;>
    cases h1 : containsSub (lowerText query) (lowerText entry.content) <;>
      simp [h1, h2, List.isEmpty_iff] <;> ring

/-- C7: for every entry and query, the relevance score computed by search
equals 10 for a (case-insensitive) substring match of the query in the
content, plus 2 per distinct word occurring in both query and content,
plus 5 per tag containing the query, plus 3 per metadata value containing
the query, plus 0.5 times the entry's importance. -/
theorem c7_relevance_formula (entry : MemoryEntry) (query : Text) :
    calculateRelevance entry query = c7SpecRelevance entry query :=
  relevance_closed_form entry query

/-- Every term of the closed-form score is nonnegative and the importance
bonus is unconditional, so an entry of importance at least 1 scores at
least 0.5 on every query (shared by the C8 and C10 theorems). -/
theorem relevance_ge_half (e : MemoryEntry) (q : Text) (h : 1 ≤ e.importance) :
    (1 : ℚ) / 2 ≤ calculateRelevance e q := by
  rw [relevance_closed_form]
  simp only [c7SpecRelevance]
  have h2 : (1 : ℚ) ≤ (e.importance : ℚ) := by exact_mod_cast h
  have t1 : (0 : ℚ) ≤
      (if containsSub (lowerText q) (lowerText e.content) then (10 : ℚ) else 0) := by
    split <;> norm_num
  have t2 : (0 : ℚ) ≤ 2 * (((pyWords (lowerText q)).dedup.filter
      (fun w => w ∈ pyWords (lowerText e.content))).length : ℚ) := by positivity
  have t3 : (0 : ℚ) ≤ 5 * ((e.tags.filter
      (fun t => containsSub (lowerText q) (lowerText t))).length : ℚ) := by positivity
  have t4 : (0 : ℚ) ≤ 3 * ((e.metadata.filter
      (fun kv => containsSub (lowerText q) (lowerText kv.2))).length : ℚ) := by positivity
  linarith

/-- An entry of importance at least 1 passes the strict-positivity
inclusion filter of `_search_in_entity` for every query. -/
theorem relevance_pos (e : MemoryEntry) (q : Text) (h : 1 ≤ e.importance) :
    (0 : ℚ) < calculateRelevance e q :=
  lt_of_lt_of_le (by norm_num) (relevance_ge_half e q h)

set_option maxRecDepth 40000 in
/-- C5: round-trip fidelity fails — the parser does not invert the
formatter.  Writing the two entries `c5Entry` (type `fact`, importance 2,
no tags, no metadata) and `c5EntryRecovery` (type `recovery`, importance
4, one tag, one metadata pair) to the on-disk text and parsing that text
back yields entries whose `content` is the whole formatted body (the
importance/tags/metadata scaffolding lines are not stripped), whose
`metadata` is the scaffolding itself (`Важность`, `Теги`, `Метаданные`,
`Содержимое` — the real pair `attempt: 2` is swallowed into the
`Метаданные` value), and whose `importance` is re-derived from the
formatted body (2 becomes 1; 4 becomes 5 because the rendered level name
`critical` is a severity keyword).  Ids, types, timestamps and tags do
survive here.  This computation evaluates the code at the failing input of
the code-bug report. -/
theorem c5_roundtrip_corruption :
    parseMarkdownEntries
        (rewriteEntityFileText (str "s") (str "2025-01-02T00:00:00")
          [c5Entry, c5EntryRecovery]) =
      [{ id := str "e1", memory_type := str "fact",
         timestampText := str "2025-01-01T00:00:00",
         content := str "**Важность**: 2/5 (normal)\n\n**Содержимое**:\nhi",
         tags := [],
         metadata := [(str "Важность", str "2/5 (normal)"), (str "Содержимое", str "hi")],
         importance := 1 },
       { id := str "e2", memory_type := str "recovery",
         timestampText := str "2025-01-01T00:00:01",
         content := str "**Важность**: 4/5 (critical)\n**Теги**: #web\n**Метаданные**:\n- **attempt**: 2\n\n**Содержимое**:\nrestarted web",
         tags := [str "web"],
         metadata := [(str "Важность", str "4/5 (critical)"), (str "Теги", str "#web"),
                      (str "Метаданные", str "- **attempt**: 2"),
                      (str "Содержимое", str "restarted web")],
         importance := 5 }] ∧
    c5Entry.metadata = [] ∧ c5Entry.importance = 2 ∧
    c5EntryRecovery.metadata = [(str "attempt", str "2")] ∧
    c5EntryRecovery.importance = 4 := by
  refine ⟨by decide, rfl, rfl, rfl, rfl⟩

/-- C9, counterexample: the code's severity list also contains
`"emergency"` and its level-3 list also contains `"updated"`; on content
`"emergency"` (type `fact`) the code derives 5 while the claim's
classification gives 1, and on content `"updated"` the code derives 3
while the claim gives 1. -/
theorem c9_counterexample :
    determineImportance (str "emergency") (str "fact") = 5 ∧
    c9ClaimedImportance (str "emergency") (str "fact") = 1 ∧
    determineImportance (str "updated") (str "fact") = 3 ∧
    c9ClaimedImportance (str "updated") (str "fact") = 1 := by
  exact ⟨by decide, by decide, by decide, by decide⟩

/-- C9 (amended): when `append` is called with importance omitted, the
derived importance is a pure, total function of content and memory type
with values in 1..5: a severity keyword (`critical`, `emergency`, `fatal`,
`crash`) gives 5; error/recovery types or a failure keyword (`failed`,
`timeout`, `restart`) give 4; warning/decision types or `alert`/`changed`/
`updated` give 3; success/monitoring types give 2; otherwise 1. -/
theorem c9_importance_derivation (content memType : Text) :
    updateMemoryImportance none content memType = c9AmendedImportance content memType ∧
    1 ≤ updateMemoryImportance none content memType ∧
    updateMemoryImportance none content memType ≤ 5 := by
  refine ⟨rfl, ?_, ?_⟩ <;>
    · rw [updateMemoryImportance, determineImportance]
      split_ifs <;> norm_num


/-- `keyGE` is total: of any two sort keys, one may precede the other. -/
theorem keyGE_total (a b : ℚ × Int) : keyGE a b ∨ keyGE b a := by
  unfold keyGE
  rcases lt_trichotomy a.1 b.1 with h | h | h
  · exact Or.inr (Or.inl h)
  · rcases le_total b.2 a.2 with h2 | h2
    · exact Or.inl (Or.inr ⟨h, h2⟩)
    · exact Or.inr (Or.inr ⟨h.symm, h2⟩)
  · exact Or.inl (Or.inl h)

/-- `keyGE` is transitive. -/
theorem keyGE_trans {a b c : ℚ × Int} (h1 : keyGE a b) (h2 : keyGE b c) : keyGE a c := by
  unfold keyGE at *
  rcases h1 with h1 | ⟨h1e, h1i⟩ <;> rcases h2 with h2 | ⟨h2e, h2i⟩
  · exact Or.inl (h2.trans h1)
  · exact Or.inl (h2e ▸ h1)
  · exact Or.inl (h1e ▸ h2)
  · exact Or.inr ⟨h1e.trans h2e, h2i.trans h1i⟩

/-- Equal sort keys may precede each other. -/
theorem keyGE_of_eq {a b : ℚ × Int} (h : a = b) : keyGE a b := by
  subst h; exact Or.inr ⟨rfl, le_refl _⟩

/-- Stable insertion produces a permutation. -/
theorem insertDesc_perm (x : SearchResult) (l : List SearchResult) :
    List.Perm (insertDesc x l) (x :: l) := by
  induction l with
  | nil => exact List.Perm.refl _
  | cons y ys ih =>
    rw [insertDesc]
    by_cases h : keyGE (searchKey x) (searchKey y)
    · rw [if_pos h]
    · rw [if_neg h]
      exact (ih.cons y).trans (List.Perm.swap x y ys)

/-- Stable insertion preserves descending sortedness. -/
theorem insertDesc_pairwise (x : SearchResult) (l : List SearchResult)
    (hl : l.Pairwise (fun a b => keyGE (searchKey a) (searchKey b))) :
    (insertDesc x l).Pairwise (fun a b => keyGE (searchKey a) (searchKey b)) := by
  induction l with
  | nil => simp [insertDesc]
  | cons y ys ih =>
    rw [insertDesc]
    rcases List.pairwise_cons.mp hl with ⟨hy, hys⟩
    by_cases h : keyGE (searchKey x) (searchKey y)
    · rw [if_pos h]
      refine List.pairwise_cons.mpr ⟨?_, hl⟩
      intro z hz
      rcases List.mem_cons.mp hz with rfl | hz2
      · exact h
      · exact keyGE_trans h (hy z hz2)
    · rw [if_neg h]
      refine List.pairwise_cons.mpr ⟨?_, ih hys⟩
      intro z hz
      have hmem : z = x ∨ z ∈ ys := by
        simpa using (insertDesc_perm x ys).mem_iff.mp hz
      rcases hmem with rfl | hz2
      · rcases keyGE_total (searchKey y) (searchKey z) with ht | ht
        · exact ht
        · exact absurd ht h
      · exact hy z hz2

/-- The search sort is a permutation of its input. -/
theorem sortByRelevanceDesc_perm (l : List SearchResult) :
    List.Perm (sortByRelevanceDesc l) l := by
  induction l with
  | nil => exact List.Perm.refl _
  | cons x xs ih => exact (insertDesc_perm x _).trans (ih.cons x)

/-- The search sort output is descending in `(score, importance)`. -/
theorem sortByRelevanceDesc_pairwise (l : List SearchResult) :
    (sortByRelevanceDesc l).Pairwise (fun a b => keyGE (searchKey a) (searchKey b)) := by
  induction l with
  | nil => simp [sortByRelevanceDesc]
  | cons x xs ih => exact insertDesc_pairwise x _ ih

/-- Inserting an element either prepends it to the tied elements of its
own key (every element it passes over has a strictly greater key) or
leaves the tied elements of any other key unchanged. -/
theorem insertDesc_filter_key (x : SearchResult) (l : List SearchResult) (k : ℚ × Int) :
    (insertDesc x l).filter (fun r => searchKey r = k) =
      if searchKey x = k then x :: l.filter (fun r => searchKey r = k)
      else l.filter (fun r => searchKey r = k) := by
  induction l with
  | nil =>
    by_cases h : searchKey x = k <;> simp [insertDesc, h]
  | cons y ys ih =>
    rw [insertDesc]
    by_cases hxy : keyGE (searchKey x) (searchKey y)
    · rw [if_pos hxy]
      by_cases h : searchKey x = k <;> simp [List.filter_cons, h]
    · rw [if_neg hxy]
      by_cases h : searchKey x = k
      · have hy : ¬ searchKey y = k := by
          intro hyk
          exact hxy (keyGE_of_eq (h.trans hyk.symm))
        simp [List.filter_cons, ih, h, hy]
      · simp [List.filter_cons, ih, h]

/-- Stability of the search sort: for every key value, sorting does not
change the sequence of the rows carrying that key. -/
theorem sortByRelevanceDesc_filter_key (l : List SearchResult) (k : ℚ × Int) :
    (sortByRelevanceDesc l).filter (fun r => searchKey r = k) =
      l.filter (fun r => searchKey r = k) := by
  induction l with
  | nil => rfl
  | cons x xs ih =>
    rw [sortByRelevanceDesc, insertDesc_filter_key, List.filter_cons]
    by_cases h : searchKey x = k <;> simp [h, ih]

/-- C8, counterexample: two result rows tied on relevance score and
importance come back in traversal order — the older, earlier-in-file entry
first — not newest-first as the claim states. -/
theorem c8_counterexample :
    (searchMemory [(str "svc", [c8OlderEntry, c8NewerEntry])] (str "alpha") none 10).map
        (fun r => r.entry.timestamp) = [10, 20] ∧
    c8OlderEntry.timestamp < c8NewerEntry.timestamp ∧
    searchKey ⟨str "svc", c8OlderEntry, calculateRelevance c8OlderEntry (str "alpha")⟩ =
      searchKey ⟨str "svc", c8NewerEntry, calculateRelevance c8NewerEntry (str "alpha")⟩ := by
  have heq : calculateRelevance c8OlderEntry (str "alpha") =
      calculateRelevance c8NewerEntry (str "alpha") := rfl
  have hkey : searchKey ⟨str "svc", c8OlderEntry, calculateRelevance c8OlderEntry (str "alpha")⟩ =
      searchKey ⟨str "svc", c8NewerEntry, calculateRelevance c8NewerEntry (str "alpha")⟩ := by
    simp only [searchKey, heq]
    rfl
  refine ⟨?_, by decide, hkey⟩
  have h1 : (0 : ℚ) < calculateRelevance c8OlderEntry (str "alpha") :=
    relevance_pos _ _ (by decide)
  have h2 : (0 : ℚ) < calculateRelevance c8NewerEntry (str "alpha") :=
    relevance_pos _ _ (by decide)
  simp only [searchMemory, searchInEntity, List.map_cons, List.map_nil,
    List.filterMap_cons, List.filterMap_nil, List.flatten]
  rw [if_pos h1, if_pos h2]
  simp only [List.append_nil, List.singleton_append, sortByRelevanceDesc, insertDesc]
  rw [if_pos (keyGE_of_eq hkey)]
  rfl

/-- C8 (amended): the list returned by memory search is sorted by
relevance score descending, then importance descending, and at most
`limit` results are returned; entries tied on both score and importance
keep their traversal order — entity iteration order, then file order
(oldest first within an entity) — rather than being ordered newest first.
The last conjunct is the stability law over the pre-truncation sort. -/
theorem c8_search_ordering (entities : List (Text × List MemoryEntry))
    (query : Text) (memType : Option Text) (limit : Nat) :
    (searchMemory entities query memType limit).Pairwise
      (fun a b => keyGE (searchKey a) (searchKey b)) ∧
    (searchMemory entities query memType limit).length ≤ limit ∧
    (∀ k : ℚ × Int,
      (sortByRelevanceDesc ((entities.map
          (fun p => searchInEntity p.1 p.2 query memType)).flatten)).filter
        (fun r => searchKey r = k) =
      ((entities.map (fun p => searchInEntity p.1 p.2 query memType)).flatten).filter
        (fun r => searchKey r = k)) := by
  refine ⟨?_, ?_, fun k => sortByRelevanceDesc_filter_key _ k⟩
  · exact (sortByRelevanceDesc_pairwise _).sublist (List.take_sublist _ _)
  · simp only [searchMemory]
    exact List.length_take_le _ _

/-- With no memory-type filter, `_search_in_entity` over entries of
importance at least 1 returns one row per entry (the score filter admits
everything). -/
theorem searchInEntity_none_length (entity : Text) (entries : List MemoryEntry)
    (query : Text) (h : ∀ e ∈ entries, 1 ≤ e.importance) :
    (searchInEntity entity entries query none).length = entries.length := by
  induction entries with
  | nil => rfl
  | cons e es ih =>
    have hpos := relevance_pos e query (h e (by simp))
    have hall : ∀ a ∈ es, 0 < calculateRelevance a query :=
      fun a ha => relevance_pos a query (h a (by simp [ha]))
    have ht := ih (fun x hx => h x (by simp [hx]))
    simp only [searchInEntity, List.filterMap_cons] at ht ⊢
    rw [if_pos hpos]
    simp [ht]
    exact hall

/-- C10: every entry of importance at least 1 scores at least 0.5 for
every query (the 0.5×importance bonus is added unconditionally), the
importance derived for parsed entries is always at least 1, and therefore
the score-greater-than-zero inclusion filter admits every entry: a search
without a type filter returns min(limit, N) of the N stored entries even
when no entry's content, tags, or metadata contains the query. -/
theorem c10_search_admits_all (entities : List (Text × List MemoryEntry))
    (query : Text) (limit : Nat)
    (himp : ∀ p ∈ entities, ∀ e ∈ p.2, 1 ≤ e.importance) :
    (∀ content memType : Text, 1 ≤ determineImportance content memType) ∧
    (∀ e : MemoryEntry, 1 ≤ e.importance → (1 : ℚ) / 2 ≤ calculateRelevance e query) ∧
    (searchMemory entities query none limit).length =
      min limit ((entities.map (fun p => p.2.length)).sum) := by
  refine ⟨?_, fun e he => relevance_ge_half e query he, ?_⟩
  · intro content memType
    rw [determineImportance]
    split_ifs <;> norm_num
  · simp only [searchMemory]
    rw [List.length_take]
    congr 1
    rw [(sortByRelevanceDesc_perm _).length_eq, List.length_flatten, List.map_map]
    exact congrArg List.sum (List.map_congr_left
      (fun p hp => searchInEntity_none_length p.1 p.2 query (himp p hp)))

/-- Witness for C10: searching a one-entry store for a query matching
nothing in it still returns that entry. -/
theorem c10_search_admits_all_witness :
    (searchMemory [(str "svc", [c10Entry])] (str "zzz") none 10).length = 1 := by
  have h := (c10_search_admits_all [(str "svc", [c10Entry])] (str "zzz") 10 (by decide)).2.2
  simpa using h

/-- Lines 821-838: a failing probe within the cooldown window while the
counter is below the limit increments the counter, refreshes the attempt
time, and runs the strategy loop. -/
theorem attempt_within_cooldown_increments (last : Int) (a : Nat) (now : Int)
    (o : Strategy → Bool) (hc : now - last < recoveryCooldown)
    (ha : a < maxRecoveryAttempts) :
    attemptServiceRecovery (some (last, a)) now o =
      (some (now, a + 1),
       if (runStrategies o).2 then RecoveryEvent.recovered
       else RecoveryEvent.escalatedExhausted) := by
  simp only [attemptServiceRecovery]
  rw [if_pos hc, if_neg (by omega)]

/-- Lines 825-829: a failing probe within the cooldown window at the
attempt limit escalates without touching the record or attempting any
strategy. -/
theorem attempt_at_limit_escalates (last : Int) (a : Nat) (now : Int)
    (o : Strategy → Bool) (hc : now - last < recoveryCooldown)
    (ha : maxRecoveryAttempts ≤ a) :
    attemptServiceRecovery (some (last, a)) now o =
      (some (last, a), RecoveryEvent.escalatedLimit) := by
  simp only [attemptServiceRecovery]
  rw [if_pos hc, if_pos ha]

/-- Lines 830-832: a failing probe at least one cooldown after the last
recorded attempt resets the counter (to 0, then increments it to 1),
regardless of anything that happened in between. -/
theorem attempt_after_cooldown_resets (last : Int) (a : Nat) (now : Int)
    (o : Strategy → Bool) (hc : recoveryCooldown ≤ now - last) :
    attemptServiceRecovery (some (last, a)) now o =
      (some (now, 1),
       if (runStrategies o).2 then RecoveryEvent.recovered
       else RecoveryEvent.escalatedExhausted) := by
  simp only [attemptServiceRecovery]
  rw [if_neg (by omega)]

/-- Lines 833-838: the first failing probe of a service without a record
creates it with counter 1. -/
theorem attempt_first_probe (now : Int) (o : Strategy → Bool) :
    attemptServiceRecovery none now o =
      (some (now, 1),
       if (runStrategies o).2 then RecoveryEvent.recovered
       else RecoveryEvent.escalatedExhausted) := by
  simp only [attemptServiceRecovery]

/-- Induction core for C1: from a record `(tl, a)` with `1 ≤ a ≤ 3`,
processing failing probes that are time-ordered and each within one
cooldown of `tl`, the counter saturates at min(a + N, 3) and a probe
escalates exactly when the limit is already reached or its whole strategy
ladder fails. -/
theorem runFailingProbes_saturates (ps : List (Int × (Strategy → Bool))) :
    ∀ (tl : Int) (a : Nat), 1 ≤ a → a ≤ 3 →
      ps.Pairwise (fun p q => p.1 ≤ q.1) →
      (∀ p ∈ ps, tl ≤ p.1 ∧ p.1 - tl < recoveryCooldown) →
      recordAttempts (runFailingProbes (some (tl, a)) ps).1 = min (a + ps.length) 3 ∧
      (∀ (k : Nat) (e : RecoveryEvent) (p : Int × (Strategy → Bool)),
        (runFailingProbes (some (tl, a)) ps).2.get? k = some e →
        ps.get? k = some p →
        (isEscalationEvent e = true ↔ (3 ≤ a + k ∨ (runStrategies p.2).2 = false))) := by
  induction ps with
  | nil =>
    intro tl a h1 h3 _ _
    refine ⟨by simp [runFailingProbes, recordAttempts]; omega, ?_⟩
    intro k e p hk _
    simp [runFailingProbes] at hk
  | cons p ps ih =>
    intro tl a h1 h3 hpw hw
    obtain ⟨hle, hlt⟩ := hw p (by simp)
    rcases List.pairwise_cons.mp hpw with ⟨hp1, hpw2⟩
    by_cases hA : a < 3
    · -- below the limit: increment and recurse with the refreshed time
      have hstep := attempt_within_cooldown_increments tl a p.1 p.2 (by omega) (by
        simpa [maxRecoveryAttempts] using hA)
      have hwin : ∀ q ∈ ps, p.1 ≤ q.1 ∧ q.1 - p.1 < recoveryCooldown := by
        intro q hq
        obtain ⟨hq1, hq2⟩ := hw q (by simp [hq])
        exact ⟨hp1 q hq, by omega⟩
      obtain ⟨ihc, ihe⟩ := ih p.1 (a + 1) (by omega) (by omega) hpw2 hwin
      rw [runFailingProbes, hstep]
      constructor
      · simpa [Nat.add_right_comm a 1 ps.length] using ihc
      · intro k e q hk hq
        cases k with
        | zero =>
          simp only [List.get?] at hk hq
          cases hk; cases hq
          cases hb : (runStrategies p.2).2 <;>
            simp [isEscalationEvent, hb] <;> omega
        | succ k2 =>
          simp only [List.get?] at hk hq
          have := ihe k2 e q hk hq
          rw [this]
          constructor <;> rintro (h | h) <;> first | (left; omega) | (right; exact h)
    · -- at the limit: escalate and leave the record untouched
      have ha3 : a = 3 := by omega
      have hstep := attempt_at_limit_escalates tl a p.1 p.2 (by omega) (by
        simp [maxRecoveryAttempts]; omega)
      obtain ⟨ihc, ihe⟩ := ih tl a h1 h3 hpw2 (fun q hq => hw q (by simp [hq]))
      rw [runFailingProbes, hstep]
      constructor
      · rw [ihc]; simp [List.length_cons]; omega
      · intro k e q hk hq
        cases k with
        | zero =>
          simp only [List.get?] at hk hq
          cases hk; cases hq
          simp [isEscalationEvent]
          omega
        | succ k2 =>
          simp only [List.get?] at hk hq
          have := ihe k2 e q hk hq
          rw [this]
          constructor <;> rintro (h | h) <;> first | (left; omega) | (right; exact h)

/-- C1, counterexample: on the very first failing probe the attempt
counter is 1, so a further automatic attempt would not exceed
max_attempts — yet the controller escalates, because every strategy tier
of this cycle failed.  Escalation is not reserved for exceeding the
attempt limit. -/
theorem c1_counterexample :
    attemptServiceRecovery none 0 (fun _ => false) =
      (some (0, 1), RecoveryEvent.escalatedExhausted) ∧
    recordAttempts (attemptServiceRecovery none 0 (fun _ => false)).1 = 1 ∧
    isEscalationEvent (attemptServiceRecovery none 0 (fun _ => false)).2 = true ∧
    1 < maxRecoveryAttempts := by
  exact ⟨by decide, by decide, by decide, by decide⟩

/-- C1 (amended): starting with no recovery record, after N consecutive
failing probes that are time-ordered and mutually within one cooldown
window, the attempt counter equals min(N, max_attempts) (max_attempts = 3
by default) — in particular it never exceeds max_attempts; and the
controller escalates at the k-th probe (0-based) exactly when the attempt
limit is already reached — that is, when a further attempt would exceed
max_attempts (k ≥ 3), in which case no strategy is attempted — or when
every strategy tier of that probe's recovery cycle fails. -/
theorem c1_attempt_counting (t0 : Int) (o0 : Strategy → Bool)
    (ps : List (Int × (Strategy → Bool)))
    (hpw : ((t0, o0) :: ps).Pairwise (fun p q => p.1 ≤ q.1))
    (hw : ∀ p ∈ ps, p.1 - t0 < recoveryCooldown) :
    maxRecoveryAttempts = 3 ∧
    recordAttempts (runFailingProbes none ((t0, o0) :: ps)).1 =
      min ((t0, o0) :: ps).length 3 ∧
    (∀ (k : Nat) (e : RecoveryEvent) (p : Int × (Strategy → Bool)),
      (runFailingProbes none ((t0, o0) :: ps)).2.get? k = some e →
      ((t0, o0) :: ps).get? k = some p →
      (isEscalationEvent e = true ↔ (3 ≤ k ∨ (runStrategies p.2).2 = false))) := by
  rcases List.pairwise_cons.mp hpw with ⟨hp1, hpw2⟩
  have hwin : ∀ q ∈ ps, t0 ≤ q.1 ∧ q.1 - t0 < recoveryCooldown :=
    fun q hq => ⟨hp1 q hq, hw q hq⟩
  obtain ⟨ihc, ihe⟩ := runFailingProbes_saturates ps t0 1 (by omega) (by omega) hpw2 hwin
  refine ⟨rfl, ?_, ?_⟩
  · rw [runFailingProbes, attempt_first_probe]
    simpa [Nat.add_comm 1 ps.length] using ihc
  · intro k e q hk hq
    rw [runFailingProbes, attempt_first_probe] at hk
    cases k with
    | zero =>
      simp only [List.get?] at hk hq
      cases hk; cases hq
      cases hb : (runStrategies o0).2 <;> simp [isEscalationEvent, hb]
    | succ k2 =>
      simp only [List.get?] at hk hq
      have := ihe k2 e q hk hq
      rw [this]
      constructor <;> rintro (h | h) <;> first | (left; omega) | (right; exact h)

/-- Witness for C1: five failing probes 10 s apart, all strategies
failing — the counter saturates at min(5, 3) = 3. -/
theorem c1_attempt_counting_witness :
    recordAttempts (runFailingProbes none
      [((0 : Int), fun _ => false), (10, fun _ => false), (20, fun _ => false),
       (30, fun _ => false), (40, fun _ => false)]).1 = min 5 3 := by
  have h := (c1_attempt_counting 0 (fun _ => false)
    [(10, fun _ => false), (20, fun _ => false), (30, fun _ => false), (40, fun _ => false)]
    (by simp [List.pairwise_cons]) (by intro p hp; fin_cases hp <;> decide)).2.1
  simpa using h

/-- C2, counterexample: along `c2FailingTrace` — a failing probe every
100 s, never a healthy one — the counter reaches 3 after three probes;
the limit-escalated probes at t=300 and t=400 do not refresh the attempt
time, so the probe at t=500 arrives a full cooldown after the last
recorded attempt (t=200) and resets the counter to 1, although no
cooldown window ever elapsed with the service healthy (the service was
never healthy at all). -/
theorem c2_counterexample :
    runMonitor none (c2FailingTrace.take 3) = some (200, 3) ∧
    runMonitor none c2FailingTrace = some (500, 1) ∧
    (∀ p ∈ c2FailingTrace, p.2.isSome = true) := by
  exact ⟨by decide, by decide, by decide⟩

/-- C2 (amended): (a) a healthy probe never touches the recovery record —
any run of healthy probes leaves it unchanged, so a cooldown window
elapsing with the service healthy resets nothing by itself; (b) a failing
probe within one cooldown of the last recorded attempt with the counter
below max_attempts increments the counter — a service flapping faster
than the cooldown window never has its counter reset while the counter is
below max_attempts; (c) a failing probe at least one cooldown after the
last recorded attempt resets the counter to 1 regardless of the service's
health in between (reset is lazy and health-blind); (d) the first failing
probe of a fresh record sets the counter to 1. -/
theorem c2_cooldown_reset (st : RecoveryRecord) (t last : Int) (a : Nat)
    (o : Strategy → Bool) :
    monitorStep st (t, none) = (st, none) ∧
    (∀ ts : List Int, runMonitor st (ts.map (fun u => (u, none))) = st) ∧
    (a < maxRecoveryAttempts → t - last < recoveryCooldown →
      (monitorStep (some (last, a)) (t, some o)).1 = some (t, a + 1)) ∧
    (recoveryCooldown ≤ t - last →
      (monitorStep (some (last, a)) (t, some o)).1 = some (t, 1)) ∧
    (monitorStep none (t, some o)).1 = some (t, 1) := by
  refine ⟨rfl, ?_, ?_, ?_, ?_⟩
  · intro ts
    induction ts with
    | nil => rfl
    | cons u us ih => simpa [runMonitor, monitorStep] using ih
  · intro h1 h2
    simp [monitorStep, attempt_within_cooldown_increments last a t o h2 h1]
  · intro h1
    simp [monitorStep, attempt_after_cooldown_resets last a t o h1]
  · simp [monitorStep, attempt_first_probe]

/-- Witness for C2: a failing probe 300 s after the last recorded attempt
resets an escalated (counter 3) service's counter to 1. -/
theorem c2_cooldown_reset_witness :
    (monitorStep (some ((0 : Int), 3)) (300, some (fun _ => false))).1 = some (300, 1) :=
  (c2_cooldown_reset (some (0, 3)) 300 0 3 (fun _ => false)).2.2.2.1 (by decide)

end TrafficRouter
